import Mathlib

/-!
Verification of the customs daily-summary logic of the chatbot-ortopedic
repository, as a shallow embedding in Lean 4.

The repository contains two parallel implementations of the customs-pending
pipeline:

* `src/automations/daily-summary/customs_summary.py` — class `CustomsSummary`
  (keyword/status classifier `check_taxation`, paginated fetch
  `get_all_packages`, HTTP retry wrapper `make_request`, message formatter
  `format_summary_message` with `translate_event`, WhatsApp sender
  `send_whatsapp_message`, orchestrator `generate_daily_summary`);
* `python/tracking_service.py` — class `TrackingService` (classifier
  `_check_taxation`, paginated fetch `get_packages_with_pending_customs`),
  together with `python/whatsapp_service.py` (`WhatsAppService.send_message`)
  and `python/customs_summary.py` (a second orchestrator).

Python strings are modelled as Lean `String`; Python `dict.get` of possibly
missing fields as `Option`; Python exceptions as `Except String`.  Python's
`str.lower` is modelled for the character ranges that occur in this code
base (ASCII and Latin-1 letters).  Each definition carries the file and
line range of the code it embeds.
-/

/-! ## Python string primitives -/

/-- Python `str.lower` on one character, for ASCII (`A`–`Z`) and the Latin-1
uppercase range (`À`–`Þ` except `×`), which covers every character occurring
in the repository's keyword lists and event strings. Other characters are
returned unchanged. -/
def pyLowerChar (c : Char) : Char :=
  let n := c.toNat
  if 65 ≤ n ∧ n ≤ 90 then Char.ofNat (n + 32)
  else if 192 ≤ n ∧ n ≤ 222 ∧ n ≠ 215 then Char.ofNat (n + 32)
  else c

/-- Python `str.lower` on a whole string. -/
def pyLower (s : String) : String := String.mk (s.data.map pyLowerChar)

/-- Python's substring operator `needle in hay` on `List Char`:
true iff `pat` occurs contiguously in the list. -/
def isSubList (pat : List Char) : List Char → Bool
  | [] => pat.isEmpty
  | c :: rest => pat.isPrefixOf (c :: rest) || isSubList pat rest

/-- Python's substring operator `needle in hay` on strings. -/
def pyContains (hay needle : String) : Bool :=
  isSubList needle.data hay.data

/-- One pass of Python `str.replace(pat, rep)` on character lists, with
explicit fuel so the kernel can evaluate it; `pyReplace` always supplies
enough fuel (the length of the string), so the `0` case is never reached on
the strings this development evaluates. Non-overlapping occurrences are
replaced left to right, exactly as Python's `str.replace` does for the
non-empty patterns used by `translate_event`. -/
def replaceListFuel (pat rep : List Char) : Nat → List Char → List Char
  | _, [] => []
  | 0, l => l
  | fuel + 1, c :: rest =>
    if !pat.isEmpty && pat.isPrefixOf (c :: rest) then
      rep ++ replaceListFuel pat rep fuel (rest.drop (pat.length - 1))
    else
      c :: replaceListFuel pat rep fuel rest

/-- Python `s.replace(pat, rep)` for non-empty `pat` (every pattern in
`translate_event` is non-empty; for empty `pat` Python would interleave
`rep` everywhere, a case this code base never exercises, and we return `s`
unchanged). -/
def pyReplace (s pat rep : String) : String :=
  if pat.isEmpty then s
  else String.mk (replaceListFuel pat.data rep.data s.data.length s.data)

/-- Python `str.isdigit` restricted to the ASCII digits that occur in the
configured phone numbers. -/
def pyIsDigit (c : Char) : Bool := '0' ≤ c && c ≤ '9'

deriving instance DecidableEq for Except

/-- A primitive JSON value, as found in the provider / gateway response
fields this code inspects (`error`, `message`, ...). -/
inductive JLit where
  | jnull
  | jbool (b : Bool)
  | jnum (n : Int)
  | jstr (s : String)
deriving DecidableEq, Repr

/-- Python truthiness of `dict.get('error')`: a missing key gives `None`
(falsy); `False`, `0`, `""` and `None` are falsy, everything else truthy. -/
def pyTruthy : Option JLit → Bool
  | none => false
  | some .jnull => false
  | some (.jbool b) => b
  | some (.jnum n) => n != 0
  | some (.jstr s) => !s.isEmpty

/-- Python `x == False` on a JSON field value: only `False` itself and the
number `0` compare equal to `False` in Python; a missing key (`None`), a
string, or any other number does not. -/
def pyEqFalse : Option JLit → Bool
  | some (.jbool b) => !b
  | some (.jnum n) => n == 0
  | _ => false

/-! ## Shipment records

`check_taxation` (daily-summary variant) reads
`package['track_info']['latest_event']['description']` and
`package['track_info']['latest_status']['status']`, each level accessed with
`.get(..., {}) or {}` / `.get(...) or ''`, so every level may be absent. -/

/-- `latest_event` object: `{description: ...}`. -/
structure LatestEvent where
  description : Option String
deriving DecidableEq, Repr

/-- `latest_status` object: `{status: ...}`. -/
structure LatestStatus where
  status : Option String
deriving DecidableEq, Repr

/-- `track_info` object of a detailed 17track package. -/
structure TrackInfo where
  latest_event : Option LatestEvent
  latest_status : Option LatestStatus
deriving DecidableEq, Repr

/-- A detailed package as consumed by `CustomsSummary.check_taxation` and
`CustomsSummary.format_summary_message`: `number` via `.get('number','N/A')`,
`track_info` via `.get('track_info', {})` (`none` models a missing or falsy
`track_info`). -/
structure Package where
  number : Option String
  track_info : Option TrackInfo
deriving DecidableEq, Repr

namespace CustomsSummary

/-- `customs_summary.py` lines 34–42: `self.customs_keywords`. -/
def customs_keywords : List String :=
  ["customs", "taxa", "imposto", "tributação", "alfândega", "fiscalização",
   "autoridade competente"]

/-- Lines 190/254: the lowered `latest_status.status` of a package's
`track_info` (`(latest_status.get('status') or '').lower()`). -/
def statusOf (ti : TrackInfo) : String :=
  pyLower ((ti.latest_status.map (fun s => s.status.getD "")).getD "")

/-- Lines 191/255: the raw `latest_event.description` of a package's
`track_info` (`latest_event.get('description') or ''` /
`latest_event.get('description', '')`). -/
def eventOf (ti : TrackInfo) : String :=
  (ti.latest_event.map (fun e => e.description.getD "")).getD ""

/-- `src/automations/daily-summary/customs_summary.py` lines 179–212,
`CustomsSummary.check_taxation`: a package with missing/falsy `track_info`
is rejected; otherwise the lowered status is tested against
`['alert', 'expired', 'undelivered']`, then the lowered event description is
searched for each customs keyword. The surrounding `try/except → False`
never fires in this embedding because field access is total. -/
def check_taxation (pkg : Package) : Bool :=
  match pkg.track_info with
  | none => false
  | some ti =>
    if statusOf ti ∈ ["alert", "expired", "undelivered"] then true
    else if customs_keywords.any (fun kw => pyContains (pyLower (eventOf ti)) kw) then true
    else false

end CustomsSummary

/-! ## TrackingService (`python/tracking_service.py`) -/

/-- A list-endpoint item as consumed by `TrackingService._check_taxation`
and `get_packages_with_pending_customs`: `item['number']` is accessed
directly (assumed present), the remaining fields with `.get`. -/
structure TrackItem where
  number : String
  carrier : Option Int
  package_status : Option String
  latest_event_info : Option String
  shipping_country : Option String
  recipient_country : Option String
  days_after_last_update : Option Int
  days_of_transit : Option Int
deriving DecidableEq, Repr

namespace TrackingService

/-- `python/tracking_service.py` lines 10–15: `self.customs_status`. -/
def customs_status : List String :=
  ["InTransit_CustomsProcessing", "Exception_Security",
   "DeliveryFailure_Security", "CustomsHold"]

/-- `python/tracking_service.py` lines 18–28: `self.customs_keywords`. -/
def customs_keywords : List String :=
  ["customs", "tax", "clearance", "alfândega", "taxa", "imposto",
   "tributação", "desembaraço", "declaração"]

/-- `python/tracking_service.py` lines 100–124,
`TrackingService._check_taxation`: a falsy argument is rejected; the status
is compared *case-sensitively* against `customs_status`; the lowered
`latest_event_info` is searched for each lowered keyword. -/
def check_taxation (info : Option TrackItem) : Bool :=
  match info with
  | none => false
  | some item =>
    let status := item.package_status.getD ""
    let latest_event := pyLower (item.latest_event_info.getD "")
    if status ∈ customs_status then true
    else customs_keywords.any (fun kw => pyContains latest_event (pyLower kw))

end TrackingService

/-! ## Summary formatting (`src/automations/daily-summary/customs_summary.py`) -/

namespace CustomsSummary

/-- Lines 216–227: the English → Portuguese phrase table of
`translate_event`, in dict-insertion order. -/
def translations : List (String × String) :=
  [("Import customs clearance delay", "Atraso no desembaraço aduaneiro"),
   ("Customs duties payment requested", "Pagamento de taxas alfandegárias solicitado"),
   ("Package returning to sender", "Pacote retornando ao remetente"),
   ("Carrier note", "Nota da transportadora"),
   ("Awaiting payment", "Aguardando pagamento"),
   ("Devolução determinada pela autoridade competente",
    "Devolução determinada pela autoridade competente"),
   ("Import customs retained", "Retido na alfândega"),
   ("Import customs clearance complete", "Desembaraço aduaneiro concluído"),
   ("Pending customs inspection", "Aguardando inspeção aduaneira"),
   ("Customs charges due", "Taxas alfandegárias pendentes")]

/-- Lines 214–234, `CustomsSummary.translate_event`: applies each
substitution of the table in order, each one a Python `str.replace`. -/
def translate_event (event : String) : String :=
  translations.foldl (fun translated p => pyReplace translated p.1 p.2) event

/-- Python truthiness of the `mensagem_taxa` variable (`None` or a string):
`None` and `""` are falsy. -/
def pyTruthyStr : Option String → Bool
  | none => false
  | some s => !s.isEmpty

/-- The accumulators of the `for pkg in packages` loop of
`format_summary_message` (lines 241–244): `taxas_pendentes`, `em_alerta`,
`com_problemas`, `mensagem_taxa`. -/
structure FmtState where
  taxas_pendentes : List String
  em_alerta : List String
  com_problemas : List String
  mensagem_taxa : Option String
deriving DecidableEq, Repr

/-- Lines 246–279, the body of the `for pkg in packages` loop of
`format_summary_message`: a package with falsy `track_info` is skipped;
otherwise, first the translated event text is searched for
`'retornando ao remetente'` (problem group), then for the customs keywords
(pending group, tracking number only, first such event kept as
`mensagem_taxa`), then the lowered status is compared to `'alert'` and to
`['expired', 'undelivered']`. -/
def processPkg (st : FmtState) (pkg : Package) : FmtState :=
  match pkg.track_info with
  | none => st
  | some ti =>
    let tracking_number := pkg.number.getD "N/A"
    let status := statusOf ti
    let event := translate_event (eventOf ti)
    if pyContains (pyLower event) "retornando ao remetente" then
      { st with com_problemas :=
          st.com_problemas ++ ["*" ++ tracking_number ++ "*: " ++ event] }
    else if customs_keywords.any (fun kw => pyContains (pyLower event) kw) then
      { st with
          taxas_pendentes := st.taxas_pendentes ++ ["*" ++ tracking_number ++ "*"],
          mensagem_taxa :=
            if pyTruthyStr st.mensagem_taxa then st.mensagem_taxa else some event }
    else if status = "alert" then
      { st with em_alerta :=
          st.em_alerta ++ ["*" ++ tracking_number ++ "*: " ++ event] }
    else if status ∈ ["expired", "undelivered"] then
      { st with com_problemas :=
          st.com_problemas ++ ["*" ++ tracking_number ++ "*: " ++ event] }
    else st

/-- Lines 236–297, `CustomsSummary.format_summary_message`: an empty input
returns the fixed no-pending message; otherwise the loop accumulators are
rendered as up to three blocks appended to the `📦 *Resumo de Pacotes*`
header (a group's block is emitted only when its list is non-empty, and the
representative `mensagem_taxa` only when truthy). -/
def format_summary_message (packages : List Package) : String :=
  if packages.isEmpty then "Nenhum pacote com pendências."
  else
    let st := packages.foldl processPkg ⟨[], [], [], none⟩
    let m0 := "📦 *Resumo de Pacotes*\n"
    let m1 :=
      if !st.taxas_pendentes.isEmpty then
        m0 ++ "\n💰 *Taxas Pendentes:*\n" ++ String.intercalate "\n" st.taxas_pendentes
          ++ (if pyTruthyStr st.mensagem_taxa then
                "\n\n_Status: " ++ st.mensagem_taxa.getD "" ++ "_"
              else "")
      else m0
    let m2 :=
      if !st.em_alerta.isEmpty then
        m1 ++ "\n\n⚠️ *Em Alerta:*\n" ++ String.intercalate "\n" st.em_alerta
      else m1
    if !st.com_problemas.isEmpty then
      m2 ++ "\n\n❌ *Com Problemas:*\n" ++ String.intercalate "\n" st.com_problemas
    else m2

/-- The loop of `format_summary_message` leaves every accumulator untouched
on this package: its `track_info` is falsy, or all four branch conditions of
the loop body are false. (Derived predicate used to state theorems about
all-skipped inputs; it mirrors the branch conditions of `processPkg`.) -/
def fmtSkips (pkg : Package) : Bool :=
  match pkg.track_info with
  | none => true
  | some ti =>
    let status := statusOf ti
    let event := translate_event (eventOf ti)
    !(pyContains (pyLower event) "retornando ao remetente") &&
    !(customs_keywords.any (fun kw => pyContains (pyLower event) kw)) &&
    !(status == "alert") &&
    !(decide (status ∈ ["expired", "undelivered"]))

end CustomsSummary

/-! ## Paginated fetch

Both fetch loops consume 17track `gettracklist` responses. A response is
modelled by the fields this code reads: its Python truthiness, `code`,
`data.accepted` (each level possibly missing) and the `page` envelope
(`data_total`, `page_size`). The item type is a parameter because the
daily-summary loop treats items opaquely while `TrackingService` reads their
fields. The response stream stands for the values successive page requests
produce (in the daily-summary variant, the dicts returned by
`make_request`). -/

/-- The `page` envelope of a `gettracklist` response. `data_total` and
`page_size` are the non-negative counts the API reports (for a provider
reporting a zero `page_size` Python would raise `ZeroDivisionError`; Lean's
total division makes `totalPagesOf` return `0` there, a case no theorem
below relies on). -/
structure PageField where
  data_total : Option Nat
  page_size : Option Nat
deriving DecidableEq, Repr

/-- The `data` object of a `gettracklist` response. -/
structure TrackData (α : Type) where
  accepted : Option (List α)
deriving DecidableEq, Repr

/-- A parsed `gettracklist` response. `isTruthy` is the Python truthiness of
the whole parsed object (`not response_data`). -/
structure TrackResp (α : Type) where
  isTruthy : Bool
  code : Option Int
  data : Option (TrackData α)
  page : Option PageField
deriving DecidableEq, Repr

/-- `response.get('data', {}).get('accepted', [])`. -/
def acceptedOf {α : Type} (r : TrackResp α) : List α :=
  ((r.data.map TrackData.accepted).getD none).getD []

/-- The envelope test of `python/tracking_service.py` lines 158–162 (and
63–67): the response is truthy, `code == 0`, and `data.accepted` is
present. -/
def validEnvelope {α : Type} (r : TrackResp α) : Bool :=
  r.isTruthy && r.code == some 0 &&
    (match r.data with
     | none => false
     | some d => d.accepted.isSome)

/-- `python/tracking_service.py` lines 165–169: `total_pages` stays `1` when
the first response has no `page` field, else
`(data_total + page_size - 1) // page_size` with defaults `0` and `40`. -/
def totalPagesOf {α : Type} (r : TrackResp α) : Nat :=
  match r.page with
  | none => 1
  | some pf =>
    let total_items := pf.data_total.getD 0
    let page_size := pf.page_size.getD 40
    (total_items + page_size - 1) / page_size

namespace CustomsSummary

/-- `src/automations/daily-summary/customs_summary.py` lines 122–145, the
`while True` loop of `get_all_packages` over the successive responses the
provider serves for pages 1, 2, …: raise when `code != 0`, append `accepted`
(missing levels default to `[]`), stop when the page has fewer than 40
items. The accumulator and request counter are threaded explicitly; an
exhausted response list models a provider that never answers the next
request (the Python loop would block there; no theorem relies on that
case). -/
def get_all_packagesAux {α : Type} :
    List (TrackResp α) → List α → Nat → Except String (List α × Nat)
  | [], _, _ => Except.error "no response from provider"
  | r :: rest, acc, reqs =>
    if r.code ≠ some 0 then Except.error "Erro ao buscar lista"
    else
      let packages := acceptedOf r
      let acc' := acc ++ packages
      if packages.length < 40 then Except.ok (acc', reqs + 1)
      else get_all_packagesAux rest acc' (reqs + 1)

/-- Lines 117–148, `CustomsSummary.get_all_packages`: runs the pagination
loop from page 1 with empty accumulator; returns the collected packages and
the number of page requests issued. -/
def get_all_packages {α : Type} (responses : List (TrackResp α)) :
    Except String (List α × Nat) :=
  get_all_packagesAux responses [] 0

end CustomsSummary

namespace TrackingService

/-- The `package_info` dict built at `python/tracking_service.py` lines
175–183 (the `UnicodeEncodeError` fallback at lines 186–192 only guards a
`print`, which this embedding does not perform). -/
structure PackageInfo where
  tracking_number : String
  status : String
  latest_event : String
  shipping_country : String
  recipient_country : String
  days_in_transit : Option Int
  days_since_update : Option Int
deriving DecidableEq, Repr

/-- Lines 175–183: field-by-field translation of a list item into
`package_info` (`.get` defaults `'Unknown'` / `''`). -/
def toPackageInfo (item : TrackItem) : PackageInfo :=
  { tracking_number := item.number
    status := item.package_status.getD "Unknown"
    latest_event := item.latest_event_info.getD ""
    shipping_country := item.shipping_country.getD ""
    recipient_country := item.recipient_country.getD ""
    days_in_transit := item.days_of_transit
    days_since_update := item.days_after_last_update }

/-- Lines 172–192: the packages of one page that pass `_check_taxation`,
translated to `package_info` records. -/
def pendingOf (r : TrackResp TrackItem) : List PackageInfo :=
  ((acceptedOf r).filter (fun item => check_taxation (some item))).map toPackageInfo

/-- `python/tracking_service.py` lines 134–194, the
`while page <= total_pages` loop of `get_packages_with_pending_customs`
after the first page fixed `total_pages`: `rem` pages remain starting at
`page`; each iteration validates the envelope (lines 158–162, raising
`'Resposta inválida da API'`), appends that page's pending packages and
counts the request. -/
def fetchLoop (responses : Nat → TrackResp TrackItem) :
    Nat → Nat → List PackageInfo → Nat → Except String (List PackageInfo × Nat)
  | _, 0, acc, reqs => Except.ok (acc, reqs)
  | page, rem + 1, acc, reqs =>
    let r := responses page
    if validEnvelope r then
      fetchLoop responses (page + 1) rem (acc ++ pendingOf r) (reqs + 1)
    else Except.error "Resposta inválida da API"

/-- Lines 126–201, `TrackingService.get_packages_with_pending_customs`:
page 1 is fetched and validated, `total_pages` is computed from its `page`
envelope (staying `1` when absent), and the remaining pages
`2 … total_pages` are processed by `fetchLoop`. Returns the pending
packages and the number of page requests issued. -/
def get_packages_with_pending_customs (responses : Nat → TrackResp TrackItem) :
    Except String (List PackageInfo × Nat) :=
  let r1 := responses 1
  if validEnvelope r1 then
    fetchLoop responses 2 (totalPagesOf r1 - 1) (pendingOf r1) 1
  else Except.error "Resposta inválida da API"

end TrackingService

/-! ## HTTP retry wrapper (`make_request`) and the WhatsApp senders -/

/-- The observable outcome of one `requests.request` call in
`CustomsSummary.make_request`: a raised transport error, a JSON response
(its parsed object), or a non-JSON response with its HTTP status. -/
inductive HttpOutcome where
  | exn (msg : String)
  | jsonResp (body : List (String × JLit))
  | textResp (status : Nat) (body : String)

/-- The value `make_request` returns: the parsed JSON object, or the raw
text of a non-JSON response. -/
inductive ReqResult where
  | json (body : List (String × JLit))
  | text (body : String)
deriving DecidableEq, Repr

/-- `src/automations/daily-summary/customs_summary.py` lines 58–70, the body
of one attempt of `make_request`: a transport error propagates; a JSON
response with truthy `error` raises `ValueError` (still inside the `try`,
hence retried); a non-JSON response raises for HTTP status ≥ 400
(`raise_for_status`) and otherwise returns its text. -/
def processResponse : HttpOutcome → Except String ReqResult
  | .exn m => Except.error m
  | .jsonResp body =>
    if pyTruthy (body.lookup "error") then Except.error "Erro na API"
    else Except.ok (ReqResult.json body)
  | .textResp status body =>
    if 400 ≤ status then Except.error "HTTPError" else Except.ok (ReqResult.text body)

namespace CustomsSummary

/-- Lines 53–79, the `for attempt in range(self.max_retries)` loop of
`make_request` over the outcomes of successive attempts: `i` is the current
attempt index, `fuel` the attempts remaining (`max_retries - i`); a failed
attempt retries while more attempts remain (`attempt < max_retries - 1`,
i.e. `fuel > 1`, with a 1-second sleep not modelled) and otherwise re-raises
the last error. `fuel = 0` cannot be reached from `make_request`, which
starts with `fuel = 3`. -/
def make_requestAux (attempts : Nat → HttpOutcome) : Nat → Nat → Except String ReqResult
  | _, 0 => Except.error "no attempts"
  | i, fuel + 1 =>
    match processResponse (attempts i) with
    | Except.ok v => Except.ok v
    | Except.error e =>
      if fuel = 0 then Except.error e else make_requestAux attempts (i + 1) fuel

/-- Lines 53–79, `CustomsSummary.make_request` with
`max_retries = 3` (line 30). -/
def make_request (attempts : Nat → HttpOutcome) : Except String ReqResult :=
  make_requestAux attempts 0 3

/-- Lines 315–322 of `send_whatsapp_message`: keep the digits of the
configured number, raise `'Número do WhatsApp inválido'` when none remain,
and prefix `'55'` when the digits do not already start with it. -/
def clean_phone_number (raw : String) : Except String String :=
  let digits := raw.data.filter pyIsDigit
  if digits.isEmpty then Except.error "Número do WhatsApp inválido"
  else if ['5', '5'].isPrefixOf digits then Except.ok (String.mk digits)
  else Except.ok (String.mk ('5' :: '5' :: digits))

/-- Lines 299–353, `CustomsSummary.send_whatsapp_message` given a configured
destination number and the outcomes of the successive HTTP attempts (the
environment-variable validation of lines 303–313 precedes this and is
assumed satisfied): normalizes the number, performs the request through
`make_request`, and re-raises when the returned object has a truthy `error`
field. A non-JSON (string) result reaches `response.get('error')`, which
raises `AttributeError` for a truthy (non-empty) string and is skipped for
an empty one. -/
def send_whatsapp_message (number : String) (attempts : Nat → HttpOutcome) :
    Except String Unit :=
  match clean_phone_number number with
  | Except.error e => Except.error e
  | Except.ok _ =>
    match make_request attempts with
    | Except.error e => Except.error e
    | Except.ok (ReqResult.json body) =>
      if pyTruthy (body.lookup "error") then Except.error "Erro ao enviar mensagem"
      else Except.ok ()
    | Except.ok (ReqResult.text t) =>
      if t.isEmpty then Except.ok () else Except.error "AttributeError"

end CustomsSummary

/-- The observable outcome of the single `requests.post` call in
`WhatsAppService.send_message`: a raised transport/parse error, or the
parsed JSON object of the response. -/
inductive WaOutcome where
  | exn (msg : String)
  | resp (body : List (String × JLit))

namespace WhatsAppService

/-- `python/whatsapp_service.py` lines 14–56,
`WhatsAppService.send_message`, over the outcomes the transport would
produce on successive attempts (the same interface as `make_request`, so
that retry behaviour is observable): the function performs exactly one
`requests.post`, returns `True` only when the parsed response is truthy and
its `error` field compares `== False`, and maps every exception to `False`.
The result pairs the returned boolean with the number of HTTP attempts
performed. The 3-second `time.sleep` after a success is not modelled. -/
def send_message (attempts : Nat → WaOutcome) : Bool × Nat :=
  match attempts 0 with
  | WaOutcome.exn _ => (false, 1)
  | WaOutcome.resp body =>
    if !body.isEmpty && pyEqFalse (body.lookup "error") then (true, 1)
    else (false, 1)

end WhatsAppService

/-! ## The two daily-summary orchestrators -/

namespace CustomsSummary

/-- `src/automations/daily-summary/customs_summary.py` lines 355–372,
`CustomsSummary.generate_daily_summary`, over the outcome of the fetch stage
and of the send stage: formats and sends only when packages were found, and
returns `{'success': True, 'packages_count': len(packages)}`; the
`except` clause (lines 370–372) logs and **re-raises**. The second
component of the result lists the messages handed to
`send_whatsapp_message` during the run. -/
def generate_daily_summary (pending : Except String (List Package))
    (sendOutcome : Except String Unit) :
    Except String (Bool × Nat) × List String :=
  match pending with
  | Except.error e => (Except.error e, [])
  | Except.ok packages =>
    if !packages.isEmpty then
      let message := format_summary_message packages
      match sendOutcome with
      | Except.error e => (Except.error e, [message])
      | Except.ok _ => (Except.ok (true, packages.length), [message])
    else (Except.ok (true, packages.length), [])

end CustomsSummary

namespace PyCustomsSummary

/-- `python/customs_summary.py` lines 40–41: the fixed fallback text. -/
def error_message : String :=
  "Erro ao gerar resumo diário de taxas pendentes. Por favor, verifique o sistema."

/-- `python/customs_summary.py` lines 20–21: the no-pending text. -/
def no_pending_message : String :=
  "Resumo Diário de Taxas Pendentes\n\nNenhum pacote aguardando pagamento de taxa na alfândega."

/-- `python/customs_summary.py` lines 29–32: the summary text for a
non-empty list of tracking codes. -/
def summary_message (tracking_codes : List String) : String :=
  "Resumo Diário de Taxas Pendentes\n\n" ++
    "Total de pacotes aguardando pagamento: " ++ toString tracking_codes.length ++
    "\n\n" ++ "Códigos de rastreamento:\n" ++ String.intercalate "\n" tracking_codes

/-- `python/customs_summary.py` lines 11–42,
`CustomsSummary.generate_daily_summary` (the `python/` variant), over the
outcome of the fetch stage. The control flow catches any stage error, hands
the fixed `error_message` to the WhatsApp channel and returns `None`; the
result lists the messages handed to `WhatsAppService.send_message` (whose
call sites here pass a single argument to that two-parameter method — a
glue mismatch outside this control-flow model; `send_message` itself never
raises, returning a boolean this orchestrator ignores). -/
def generate_daily_summary (pending : Except String (List TrackingService.PackageInfo)) :
    Unit × List String :=
  match pending with
  | Except.error _ => ((), [error_message])
  | Except.ok pending_packages =>
    if pending_packages.isEmpty then ((), [no_pending_message])
    else
      ((), [summary_message (pending_packages.map TrackingService.PackageInfo.tracking_number)])

end PyCustomsSummary

/-! ## Smoke tests of the embedding (concrete evaluations) -/

example : CustomsSummary.check_taxation
    ⟨some "BR1", some ⟨some ⟨some "Import customs retained"⟩, some ⟨some "InTransit"⟩⟩⟩
    = true := by decide

example : CustomsSummary.check_taxation
    ⟨some "BR1", some ⟨some ⟨some "Arrived at sorting center"⟩, some ⟨some "CustomsHold"⟩⟩⟩
    = false := by decide

example : TrackingService.check_taxation
    (some ⟨"BR1", none, some "CustomsHold", some "Arrived", none, none, none, none⟩)
    = true := by decide

example : TrackingService.check_taxation
    (some ⟨"BR1", none, some "alert", some "Arrived", none, none, none, none⟩)
    = false := by decide

example : pyLower "ALFÂNDEGA" = "alfândega" := by decide

example : pyReplace "Package returning to sender - customs"
    "Package returning to sender" "Pacote retornando ao remetente"
    = "Pacote retornando ao remetente - customs" := by decide

/-! ## Theorems for the spec claims -/

/-- C1: a record whose latest event description contains (case-insensitively)
a configured customs keyword, and whose latest status is not in the
problem-status set, is classified as customs-pending: `check_taxation`
returns `True` in the daily-summary variant and `_check_taxation` returns
`True` in the `TrackingService` variant. -/
theorem claim_C1 :
    (∀ (pkg : Package) (ti : TrackInfo), pkg.track_info = some ti →
      CustomsSummary.statusOf ti ∉ ["alert", "expired", "undelivered"] →
      (CustomsSummary.customs_keywords.any fun kw =>
        pyContains (pyLower (CustomsSummary.eventOf ti)) kw) = true →
      CustomsSummary.check_taxation pkg = true)
    ∧ (∀ item : TrackItem,
      item.package_status.getD "" ∉ TrackingService.customs_status →
      (TrackingService.customs_keywords.any fun kw =>
        pyContains (pyLower (item.latest_event_info.getD "")) (pyLower kw)) = true →
      TrackingService.check_taxation (some item) = true) := by
  constructor
  · intro pkg ti hti _ hkw
    simp [CustomsSummary.check_taxation, hti, hkw]
  · intro item _ hkw
    simp [TrackingService.check_taxation, hkw]

/-- C1 (witness): a package whose latest event is `"Import customs retained"`
with status `"InTransit"`, and a `TrackingService` item whose latest event is
`"customs clearance fee due"` with status `"InTransit_Other"`, are both
classified as pending. -/
theorem claim_C1_witness :
    CustomsSummary.check_taxation
      ⟨some "BR1", some ⟨some ⟨some "Import customs retained"⟩, some ⟨some "InTransit"⟩⟩⟩ = true
    ∧ TrackingService.check_taxation
      (some ⟨"LP123", none, some "InTransit_Other", some "customs clearance fee due",
        none, none, none, none⟩) = true :=
  ⟨claim_C1.1 _ _ rfl (by decide) (by decide),
   claim_C1.2 _ (by decide) (by decide)⟩

/-- C2 (counterexample): the claim quantifies over the *union* problem-status
set, case-insensitively, for both classifiers. It fails: a record whose
status is `CustomsHold` (in the union set, case-insensitively) with a benign
event is rejected by the daily-summary `check_taxation` (which only knows
`alert`/`expired`/`undelivered`); symmetrically, `_check_taxation` rejects
the generic status `alert`, and also rejects `customshold` because its
status comparison is case-sensitive. -/
theorem claim_C2_cex :
    ((["alert", "expired", "undelivered"] ++ TrackingService.customs_status).map pyLower).contains
        (pyLower "CustomsHold") = true
    ∧ CustomsSummary.check_taxation
        ⟨some "BR2", some ⟨some ⟨some "Arrived at the carrier facility"⟩,
          some ⟨some "CustomsHold"⟩⟩⟩ = false
    ∧ TrackingService.check_taxation
        (some ⟨"LP2", none, some "alert", some "Arrived at the carrier facility",
          none, none, none, none⟩) = false
    ∧ TrackingService.check_taxation
        (some ⟨"LP3", none, some "customshold", some "Arrived at the carrier facility",
          none, none, none, none⟩) = false := by
  decide

/-- C2 (amended): each classifier honours only its own status set —
a record whose lowered status is in `{alert, expired, undelivered}` is
always accepted by the daily-summary `check_taxation`, and a record whose
`package_status` is (case-sensitively) one of the provider customs codes is
always accepted by `TrackingService._check_taxation`. -/
theorem claim_C2 :
    (∀ (pkg : Package) (ti : TrackInfo), pkg.track_info = some ti →
      CustomsSummary.statusOf ti ∈ ["alert", "expired", "undelivered"] →
      CustomsSummary.check_taxation pkg = true)
    ∧ (∀ item : TrackItem,
      item.package_status.getD "" ∈ TrackingService.customs_status →
      TrackingService.check_taxation (some item) = true) := by
  constructor
  · intro pkg ti hti hst
    simp [CustomsSummary.check_taxation, hti, hst]
  · intro item hst
    simp [TrackingService.check_taxation, hst]

/-- C2 (witness): a package with status `"Alert"` (lowering to `alert`) and a
`TrackingService` item with status `"CustomsHold"` are both accepted. -/
theorem claim_C2_witness :
    CustomsSummary.check_taxation
      ⟨some "BR3", some ⟨some ⟨some "Delivery attempt failed"⟩, some ⟨some "Alert"⟩⟩⟩ = true
    ∧ TrackingService.check_taxation
      (some ⟨"LP4", none, some "CustomsHold", some "Arrived at the carrier facility",
        none, none, none, none⟩) = true :=
  ⟨claim_C2.1 _ _ rfl (by decide), claim_C2.2 _ (by decide)⟩

/-- A package that `fmtSkips` accepts leaves the loop state of
`format_summary_message` unchanged. -/
lemma processPkg_skip (pkg : Package) (h : CustomsSummary.fmtSkips pkg = true)
    (st : CustomsSummary.FmtState) : CustomsSummary.processPkg st pkg = st := by
  cases hti : pkg.track_info with
  | none => simp [CustomsSummary.processPkg, hti]
  | some ti =>
    simp only [CustomsSummary.fmtSkips, hti, Bool.and_eq_true, Bool.not_eq_true',
      decide_eq_false_iff_not, beq_eq_false_iff_ne, ne_eq] at h
    obtain ⟨⟨⟨h1, h2⟩, h3⟩, h4⟩ := h
    simp [CustomsSummary.processPkg, hti, h1, h2, h3, h4]

/-- A list of packages that all satisfy `fmtSkips` folds to the initial
loop state. -/
lemma foldl_processPkg_skip :
    ∀ (packages : List Package), packages.all CustomsSummary.fmtSkips = true →
      ∀ st : CustomsSummary.FmtState, packages.foldl CustomsSummary.processPkg st = st := by
  intro packages
  induction packages with
  | nil => intro _ st; rfl
  | cons p ps ih =>
    intro h st
    simp only [List.all_cons, Bool.and_eq_true] at h
    simp only [List.foldl_cons, processPkg_skip p h.1 st]
    exact ih h.2 st

/-- C3 (counterexample): the claim states that `format_summary_message` of
the empty list and of a non-empty all-`none` list return the same fixed
string. It fails: the empty list returns the fixed no-pending message, but a
non-empty list whose only record is classified `none` (benign status and
event) returns just the summary header, a different string. -/
theorem claim_C3_cex :
    CustomsSummary.format_summary_message [] = "Nenhum pacote com pendências."
    ∧ CustomsSummary.check_taxation
        ⟨some "BR1", some ⟨some ⟨some "Arrived at the carrier facility"⟩,
          some ⟨some "Delivered"⟩⟩⟩ = false
    ∧ CustomsSummary.format_summary_message
        [⟨some "BR1", some ⟨some ⟨some "Arrived at the carrier facility"⟩,
          some ⟨some "Delivered"⟩⟩⟩] = "📦 *Resumo de Pacotes*\n"
    ∧ ("📦 *Resumo de Pacotes*\n" : String) ≠ "Nenhum pacote com pendências." := by
  refine ⟨rfl, by decide, by decide, by decide⟩

/-- C3 (amended): `format_summary_message []` returns the fixed
`"Nenhum pacote com pendências."` message, but a *non-empty* list never
does: when every record is skipped by the grouping loop (in particular when
all are classified `none` and none carries a returning-to-sender event), the
formatter returns the bare `"📦 *Resumo de Pacotes*\n"` header instead. -/
theorem claim_C3 :
    CustomsSummary.format_summary_message [] = "Nenhum pacote com pendências."
    ∧ ∀ packages : List Package, packages ≠ [] →
        packages.all CustomsSummary.fmtSkips = true →
        CustomsSummary.format_summary_message packages = "📦 *Resumo de Pacotes*\n" := by
  refine ⟨rfl, ?_⟩
  intro packages hne hall
  simp only [CustomsSummary.format_summary_message, List.isEmpty_eq_true, hne, if_false,
    foldl_processPkg_skip packages hall]
  rfl

/-- C3 (witness): the amended statement applied to the one-record benign
list of the counterexample. -/
theorem claim_C3_witness :
    CustomsSummary.format_summary_message
      [⟨some "BR1", some ⟨some ⟨some "Arrived at the carrier facility"⟩,
        some ⟨some "Delivered"⟩⟩⟩] = "📦 *Resumo de Pacotes*\n" :=
  claim_C3.2 _ (by decide) (by decide)

/-- One unfolding step of the `TrackingService` pagination loop. -/
lemma fetchLoop_succ (responses : Nat → TrackResp TrackItem) (page rem : Nat)
    (acc : List TrackingService.PackageInfo) (reqs : Nat) :
    TrackingService.fetchLoop responses page (rem + 1) acc reqs =
      if validEnvelope (responses page) then
        TrackingService.fetchLoop responses (page + 1) rem
          (acc ++ TrackingService.pendingOf (responses page)) (reqs + 1)
      else Except.error "Resposta inválida da API" := rfl

/-- Terminal step of the `TrackingService` pagination loop. -/
lemma fetchLoop_zero (responses : Nat → TrackResp TrackItem)
    (page : Nat) (acc : List TrackingService.PackageInfo) (reqs : Nat) :
    TrackingService.fetchLoop responses page 0 acc reqs = Except.ok (acc, reqs) := rfl

/-- C4: a provider whose first page reports `data_total = 85`,
`page_size = 40` leads to exactly 3 page requests. For the daily-summary
`get_all_packages` (pages of 40, 40 and 5 items, consistent with that
report), the result is the concatenation of the three `accepted` arrays in
page order, after exactly 3 requests, whatever responses follow; for
`TrackingService.get_packages_with_pending_customs`, `total_pages` is
`⌈85/40⌉ = 3` and exactly 3 requests are issued, returning the pending
packages of the three pages in page order. -/
theorem claim_C4 :
    (∀ (α : Type) (r1 r2 r3 : TrackResp α) (rest : List (TrackResp α)) (a1 a2 a3 : List α),
      r1.code = some 0 → r2.code = some 0 → r3.code = some 0 →
      r1.page = some ⟨some 85, some 40⟩ →
      acceptedOf r1 = a1 → acceptedOf r2 = a2 → acceptedOf r3 = a3 →
      a1.length = 40 → a2.length = 40 → a3.length = 5 →
      CustomsSummary.get_all_packages (r1 :: r2 :: r3 :: rest) =
        Except.ok (a1 ++ a2 ++ a3, 3))
    ∧ (∀ responses : Nat → TrackResp TrackItem,
      validEnvelope (responses 1) = true → validEnvelope (responses 2) = true →
      validEnvelope (responses 3) = true →
      (responses 1).page = some ⟨some 85, some 40⟩ →
      TrackingService.get_packages_with_pending_customs responses =
        Except.ok (TrackingService.pendingOf (responses 1) ++
          TrackingService.pendingOf (responses 2) ++
          TrackingService.pendingOf (responses 3), 3)) := by
  constructor
  · intro α r1 r2 r3 rest a1 a2 a3 hc1 hc2 hc3 _ ha1 ha2 ha3 hl1 hl2 hl3
    simp [CustomsSummary.get_all_packages, CustomsSummary.get_all_packagesAux,
      hc1, hc2, hc3, ha1, ha2, ha3, hl1, hl2, hl3]
  · intro responses hv1 hv2 hv3 hpage
    have htp : totalPagesOf (responses 1) = 3 := by
      simp [totalPagesOf, hpage]
    simp only [TrackingService.get_packages_with_pending_customs, hv1, if_true, htp]
    rw [show (3 : Nat) - 1 = 1 + 1 from rfl, fetchLoop_succ, if_pos hv2,
      fetchLoop_succ, if_pos hv3, fetchLoop_zero]

/-- Provider script for the C4 witness: every page is a valid envelope
reporting `data_total = 85`, `page_size = 40`, whose single accepted item is
held at customs. -/
def c4Item : TrackItem :=
  ⟨"LP100", none, some "CustomsHold", some "Retained by customs", some "CN", some "BR",
    some 3, some 20⟩

/-- A constant valid 17track response used by the C4 witness. -/
def c4Resp : TrackResp TrackItem :=
  ⟨true, some 0, some ⟨some [c4Item]⟩, some ⟨some 85, some 40⟩⟩

/-- C4 (witness): the theorem applied to a concrete provider — three pages
of 40/40/5 numbered items for `get_all_packages`, and the constant script
`c4Resp` for the `TrackingService` fetch. -/
theorem claim_C4_witness :
    CustomsSummary.get_all_packages
      [⟨true, some 0, some ⟨some (List.replicate 40 0)⟩, some ⟨some 85, some 40⟩⟩,
       ⟨true, some 0, some ⟨some (List.replicate 40 1)⟩, none⟩,
       ⟨true, some 0, some ⟨some (List.replicate 5 2)⟩, none⟩] =
      Except.ok (List.replicate 40 0 ++ List.replicate 40 1 ++ List.replicate 5 2, 3)
    ∧ TrackingService.get_packages_with_pending_customs (fun _ => c4Resp) =
      Except.ok (TrackingService.pendingOf c4Resp ++ TrackingService.pendingOf c4Resp ++
        TrackingService.pendingOf c4Resp, 3) :=
  ⟨claim_C4.1 Nat _ _ _ [] _ _ _ rfl rfl rfl rfl rfl rfl rfl (by decide) (by decide) (by decide),
   claim_C4.2 (fun _ => c4Resp) (by decide) (by decide) (by decide) rfl⟩

/-- One unfolding step of the `make_request` attempt loop. -/
lemma make_requestAux_succ (attempts : Nat → HttpOutcome) (i fuel : Nat) :
    CustomsSummary.make_requestAux attempts i (fuel + 1) =
      match processResponse (attempts i) with
      | Except.ok v => Except.ok v
      | Except.error e =>
        if fuel = 0 then Except.error e
        else CustomsSummary.make_requestAux attempts (i + 1) fuel := rfl

/-- A failed attempt with at least one attempt remaining retries on the next
attempt index. -/
lemma make_requestAux_retry (attempts : Nat → HttpOutcome) (i fuel : Nat) (e : String)
    (h : processResponse (attempts i) = Except.error e) :
    CustomsSummary.make_requestAux attempts i (fuel + 2) =
      CustomsSummary.make_requestAux attempts (i + 1) (fuel + 1) := by
  rw [make_requestAux_succ, h]
  simp

/-- A failed attempt with no attempt remaining re-raises its error. -/
lemma make_requestAux_last (attempts : Nat → HttpOutcome) (i : Nat) (e : String)
    (h : processResponse (attempts i) = Except.error e) :
    CustomsSummary.make_requestAux attempts i 1 = Except.error e := by
  rw [make_requestAux_succ, h]
  rfl

/-- A successful attempt returns its value immediately. -/
lemma make_requestAux_ok (attempts : Nat → HttpOutcome) (i fuel : Nat) (v : ReqResult)
    (h : processResponse (attempts i) = Except.ok v) :
    CustomsSummary.make_requestAux attempts i (fuel + 1) = Except.ok v := by
  rw [make_requestAux_succ, h]

/-- C5: for `make_request` with its attempt budget of 3 — if the first two
attempts raise a transport error and the third produces a successful result,
the call returns that result without surfacing any error; if all three
attempts raise, the call raises the third (final) error to the caller. -/
theorem claim_C5 :
    (∀ (attempts : Nat → HttpOutcome) (m0 m1 : String) (v : ReqResult),
      attempts 0 = HttpOutcome.exn m0 → attempts 1 = HttpOutcome.exn m1 →
      processResponse (attempts 2) = Except.ok v →
      CustomsSummary.make_request attempts = Except.ok v)
    ∧ (∀ (attempts : Nat → HttpOutcome) (m0 m1 m2 : String),
      attempts 0 = HttpOutcome.exn m0 → attempts 1 = HttpOutcome.exn m1 →
      attempts 2 = HttpOutcome.exn m2 →
      CustomsSummary.make_request attempts = Except.error m2) := by
  constructor
  · intro attempts m0 m1 v h0 h1 h2
    have e0 : processResponse (attempts 0) = Except.error m0 := by rw [h0]; rfl
    have e1 : processResponse (attempts 1) = Except.error m1 := by rw [h1]; rfl
    show CustomsSummary.make_requestAux attempts 0 3 = Except.ok v
    rw [show (3 : Nat) = 1 + 2 from rfl, make_requestAux_retry attempts 0 1 m0 e0,
      make_requestAux_retry attempts 1 0 m1 e1]
    exact make_requestAux_ok attempts 2 0 v h2
  · intro attempts m0 m1 m2 h0 h1 h2
    have e0 : processResponse (attempts 0) = Except.error m0 := by rw [h0]; rfl
    have e1 : processResponse (attempts 1) = Except.error m1 := by rw [h1]; rfl
    have e2 : processResponse (attempts 2) = Except.error m2 := by rw [h2]; rfl
    show CustomsSummary.make_requestAux attempts 0 3 = Except.error m2
    rw [show (3 : Nat) = 1 + 2 from rfl, make_requestAux_retry attempts 0 1 m0 e0,
      make_requestAux_retry attempts 1 0 m1 e1]
    exact make_requestAux_last attempts 2 m2 e2

/-- Attempt script for the C5 witness: two timeouts, then a successful JSON
response. -/
def c5Attempts : Nat → HttpOutcome := fun i =>
  if i = 0 then HttpOutcome.exn "ConnectTimeout"
  else if i = 1 then HttpOutcome.exn "ReadTimeout"
  else HttpOutcome.jsonResp [("code", JLit.jnum 0)]

/-- Attempt script for the C5 witness: three timeouts. -/
def c5AttemptsFail : Nat → HttpOutcome := fun i =>
  if i = 0 then HttpOutcome.exn "ConnectTimeout"
  else if i = 1 then HttpOutcome.exn "ReadTimeout"
  else HttpOutcome.exn "ConnectionError"

/-- C5 (witness): the theorem applied to the two concrete attempt
scripts. -/
theorem claim_C5_witness :
    CustomsSummary.make_request c5Attempts =
      Except.ok (ReqResult.json [("code", JLit.jnum 0)])
    ∧ CustomsSummary.make_request c5AttemptsFail = Except.error "ConnectionError" :=
  ⟨claim_C5.1 c5Attempts "ConnectTimeout" "ReadTimeout" _ rfl rfl rfl,
   claim_C5.2 c5AttemptsFail "ConnectTimeout" "ReadTimeout" "ConnectionError" rfl rfl rfl⟩

/-- C6: the phone normalization of `send_whatsapp_message` maps
`"(55) 11 99999-8888"` and `"11999998888"` both to `"5511999998888"`, raises
the configuration error when the input has no digits at all, and in general
keeps the digits, prefixing `55` exactly when they do not already start
with `55`. -/
theorem claim_C6 :
    CustomsSummary.clean_phone_number "(55) 11 99999-8888" = Except.ok "5511999998888"
    ∧ CustomsSummary.clean_phone_number "11999998888" = Except.ok "5511999998888"
    ∧ (∀ raw : String, raw.data.filter pyIsDigit = [] →
        CustomsSummary.clean_phone_number raw =
          Except.error "Número do WhatsApp inválido")
    ∧ (∀ raw : String, raw.data.filter pyIsDigit ≠ [] →
        CustomsSummary.clean_phone_number raw =
          if ['5', '5'].isPrefixOf (raw.data.filter pyIsDigit) then
            Except.ok (String.mk (raw.data.filter pyIsDigit))
          else Except.ok (String.mk ('5' :: '5' :: raw.data.filter pyIsDigit))) := by
  refine ⟨by decide, by decide, ?_, ?_⟩
  · intro raw h
    simp [CustomsSummary.clean_phone_number, h]
  · intro raw h
    simp only [CustomsSummary.clean_phone_number, List.isEmpty_eq_true, h, if_false]

/-- C6 (witness): the general clauses applied to a digit-free input and to a
number lacking the country code. -/
theorem claim_C6_witness :
    CustomsSummary.clean_phone_number "abc-def" = Except.error "Número do WhatsApp inválido"
    ∧ CustomsSummary.clean_phone_number "11 98765-4321" = Except.ok "5511987654321" :=
  ⟨claim_C6.2.2.1 "abc-def" (by decide),
   by simpa using claim_C6.2.2.2 "11 98765-4321" (by decide)⟩

/-- Any invalid envelope within the pages the `TrackingService` loop still
has to visit makes the whole loop raise. -/
lemma fetchLoop_error (responses : Nat → TrackResp TrackItem) :
    ∀ (rem page : Nat) (acc : List TrackingService.PackageInfo) (reqs k : Nat),
      k < rem → validEnvelope (responses (page + k)) = false →
      TrackingService.fetchLoop responses page rem acc reqs =
        Except.error "Resposta inválida da API" := by
  intro rem
  induction rem with
  | zero => intro page acc reqs k hk _; exact absurd hk (Nat.not_lt_zero k)
  | succ r ih =>
    intro page acc reqs k hk hv
    by_cases h : validEnvelope (responses page) = true
    · rw [fetchLoop_succ, if_pos h]
      have hk0 : k ≠ 0 := by
        intro h0
        rw [h0, Nat.add_zero] at hv
        rw [h] at hv
        exact absurd hv (by simp)
      obtain ⟨k', rfl⟩ : ∃ k', k = k' + 1 := ⟨k - 1, by omega⟩
      exact ih (page + 1) _ _ k' (by omega) (by rw [show page + 1 + k' = page + (k' + 1) from by omega]; exact hv)
    · rw [fetchLoop_succ, if_neg h]

/-- C7 (counterexample): the claim states that a list-page response missing
`data.accepted` makes the paginated fetch raise. For the daily-summary
`get_all_packages` it fails: a first page with `code = 0` and no `data`
object at all is treated as an empty page — the fetch returns `ok` with the
empty list after one request instead of raising. -/
theorem claim_C7_cex :
    (⟨true, some 0, none, none⟩ : TrackResp Nat).data = none
    ∧ validEnvelope (⟨true, some 0, none, none⟩ : TrackResp Nat) = false
    ∧ CustomsSummary.get_all_packages [(⟨true, some 0, none, none⟩ : TrackResp Nat)] =
        Except.ok ([], 1) := by
  decide

/-- C7 (amended): `TrackingService.get_packages_with_pending_customs` raises
`'Resposta inválida da API'` — returning no partial result — whenever any
visited page's envelope is falsy, has non-zero `code`, or lacks
`data.accepted`; the daily-summary `get_all_packages` raises only for a
non-zero (or missing) `code` field, and treats a `code = 0` page with
missing `data.accepted` as an empty page, terminating normally with the
packages accumulated so far. -/
theorem claim_C7 :
    (∀ responses : Nat → TrackResp TrackItem, validEnvelope (responses 1) = false →
      TrackingService.get_packages_with_pending_customs responses =
        Except.error "Resposta inválida da API")
    ∧ (∀ (responses : Nat → TrackResp TrackItem) (j : Nat),
        validEnvelope (responses 1) = true → 2 ≤ j → j ≤ totalPagesOf (responses 1) →
        validEnvelope (responses j) = false →
        TrackingService.get_packages_with_pending_customs responses =
          Except.error "Resposta inválida da API")
    ∧ (∀ (α : Type) (r : TrackResp α) (rest : List (TrackResp α)), r.code ≠ some 0 →
        CustomsSummary.get_all_packages (r :: rest) = Except.error "Erro ao buscar lista")
    ∧ (∀ (α : Type) (r : TrackResp α) (rest : List (TrackResp α)) (acc : List α) (reqs : Nat),
        r.code = some 0 → acceptedOf r = [] →
        CustomsSummary.get_all_packagesAux (r :: rest) acc reqs =
          Except.ok (acc, reqs + 1)) := by
  refine ⟨?_, ?_, ?_, ?_⟩
  · intro responses hv
    simp [TrackingService.get_packages_with_pending_customs, hv]
  · intro responses j hv1 hj2 hjtp hvj
    simp only [TrackingService.get_packages_with_pending_customs, hv1, if_true]
    exact fetchLoop_error responses _ 2 _ 1 (j - 2) (by omega)
      (by rw [show 2 + (j - 2) = j from by omega]; exact hvj)
  · intro α r rest hc
    simp [CustomsSummary.get_all_packages, CustomsSummary.get_all_packagesAux, hc]
  · intro α r rest acc reqs hc ha
    simp [CustomsSummary.get_all_packagesAux, hc, ha]

/-- C7 (witness): the amended statement applied to concrete pages — an
invalid first page, a provider whose second of three pages is invalid, a
non-zero-code first page, and a `code = 0` page missing `data.accepted`. -/
theorem claim_C7_witness :
    TrackingService.get_packages_with_pending_customs
      (fun _ => ⟨true, some 1, none, none⟩) = Except.error "Resposta inválida da API"
    ∧ TrackingService.get_packages_with_pending_customs
      (fun n => if n = 2 then ⟨true, some 0, none, none⟩ else c4Resp) =
        Except.error "Resposta inválida da API"
    ∧ CustomsSummary.get_all_packages [(⟨true, some 1, none, none⟩ : TrackResp Nat)] =
        Except.error "Erro ao buscar lista"
    ∧ CustomsSummary.get_all_packagesAux
        [(⟨true, some 0, some ⟨none⟩, none⟩ : TrackResp Nat)] [3, 4] 1 =
        Except.ok ([3, 4], 2) :=
  ⟨claim_C7.1 _ (by decide),
   claim_C7.2.1 _ 2 (by decide) (by decide) (by decide) (by decide),
   claim_C7.2.2.1 Nat _ [] (by decide),
   claim_C7.2.2.2 Nat _ [] [3, 4] 1 rfl (by decide)⟩

/-- Attempt script for the C8 counterexample: a transport failure, then a
success response the function never asks for. -/
def c8Attempts : Nat → WaOutcome := fun n =>
  if n = 0 then WaOutcome.exn "ConnectTimeout"
  else WaOutcome.resp [("error", JLit.jbool false), ("messageId", JLit.jstr "m1")]

/-- C8 (counterexample): the claim states `send_message` retries like the
fetch path (3 attempts). It fails: with a transport error on the first
attempt and a success response available on the second,
`WhatsAppService.send_message` returns `False` after exactly one attempt —
under a 3-attempt retry policy the call would have succeeded. -/
theorem claim_C8_cex :
    WhatsAppService.send_message c8Attempts = (false, 1)
    ∧ c8Attempts 1 = WaOutcome.resp [("error", JLit.jbool false), ("messageId", JLit.jstr "m1")]
    ∧ pyEqFalse (([("error", JLit.jbool false), ("messageId", JLit.jstr "m1")] :
        List (String × JLit)).lookup "error") = true :=
  ⟨by decide, rfl, by decide⟩

/-- C8 (amended): `WhatsAppService.send_message` returns `True` exactly when
the parsed gateway response is a truthy (non-empty) object whose `error`
field compares `== False` in Python, and returns `False` without raising for
every other outcome, including transport errors — but it performs exactly
one attempt, with no retry; the 3-attempt bounded retry policy exists only
on the daily-summary `make_request` path, which `send_whatsapp_message`
does use (a send whose first two attempts raise and whose third returns an
error-free JSON object succeeds there). -/
theorem claim_C8 :
    (∀ (attempts : Nat → WaOutcome) (body : List (String × JLit)),
      attempts 0 = WaOutcome.resp body →
      WhatsAppService.send_message attempts =
        (!body.isEmpty && pyEqFalse (body.lookup "error"), 1))
    ∧ (∀ (attempts : Nat → WaOutcome) (m : String),
      attempts 0 = WaOutcome.exn m →
      WhatsAppService.send_message attempts = (false, 1))
    ∧ (∀ (attempts : Nat → HttpOutcome) (m0 m1 : String) (body : List (String × JLit)),
      attempts 0 = HttpOutcome.exn m0 → attempts 1 = HttpOutcome.exn m1 →
      attempts 2 = HttpOutcome.jsonResp body → pyTruthy (body.lookup "error") = false →
      CustomsSummary.send_whatsapp_message "5511999998888" attempts = Except.ok ()) := by
  refine ⟨?_, ?_, ?_⟩
  · intro attempts body h
    cases hb : !body.isEmpty && pyEqFalse (body.lookup "error") <;>
      simp [WhatsAppService.send_message, h, hb]
  · intro attempts m h
    simp [WhatsAppService.send_message, h]
  · intro attempts m0 m1 body h0 h1 h2 herr
    have e0 : processResponse (attempts 0) = Except.error m0 := by rw [h0]; rfl
    have e1 : processResponse (attempts 1) = Except.error m1 := by rw [h1]; rfl
    have e2 : processResponse (attempts 2) = Except.ok (ReqResult.json body) := by
      rw [h2]; simp [processResponse, herr]
    have hmr : CustomsSummary.make_request attempts = Except.ok (ReqResult.json body) := by
      show CustomsSummary.make_requestAux attempts 0 3 = _
      rw [show (3 : Nat) = 1 + 2 from rfl, make_requestAux_retry attempts 0 1 m0 e0,
        make_requestAux_retry attempts 1 0 m1 e1]
      exact make_requestAux_ok attempts 2 0 _ e2
    simp only [CustomsSummary.send_whatsapp_message,
      show CustomsSummary.clean_phone_number "5511999998888" = Except.ok "5511999998888"
        from by decide,
      hmr, herr, Bool.false_eq_true, if_false]

/-- Attempt script for the C8 witness: a rejection response on the first
attempt. -/
def c8Reject : Nat → WaOutcome := fun _ =>
  WaOutcome.resp [("error", JLit.jbool true), ("message", JLit.jstr "invalid number")]

/-- Attempt script for the C8 witness: a success response on the first
attempt. -/
def c8Accept : Nat → WaOutcome := fun _ =>
  WaOutcome.resp [("error", JLit.jbool false), ("messageId", JLit.jstr "m2")]

/-- C8 (witness): the amended statement applied to a gateway rejection (no
exception, `False` after one attempt), a gateway acceptance (`True` after
one attempt), a transport error, and a daily-summary send that succeeds on
its third attempt. -/
theorem claim_C8_witness :
    WhatsAppService.send_message c8Reject = (false, 1)
    ∧ WhatsAppService.send_message c8Accept = (true, 1)
    ∧ WhatsAppService.send_message (fun _ => WaOutcome.exn "ReadTimeout") = (false, 1)
    ∧ CustomsSummary.send_whatsapp_message "5511999998888"
        c5Attempts = Except.ok () :=
  ⟨by have h := claim_C8.1 c8Reject _ rfl; simpa using h,
   by have h := claim_C8.1 c8Accept _ rfl; simpa using h,
   claim_C8.2.1 _ "ReadTimeout" rfl,
   claim_C8.2.2 c5Attempts "ConnectTimeout" "ReadTimeout" _ rfl rfl rfl (by decide)⟩

/-- C9 (counterexample): the claim states that a stage error makes the job
send a generic failure notification and return normally. For the
daily-summary `generate_daily_summary` it fails: a fetch-stage error is
re-raised to the caller and no message at all is handed to the WhatsApp
channel. -/
theorem claim_C9_cex :
    CustomsSummary.generate_daily_summary
      (Except.error "Resposta inválida da API") (Except.ok ()) =
      (Except.error "Resposta inválida da API", []) := rfl

/-- C9 (amended): on a stage error the daily-summary
`generate_daily_summary` re-raises it to its caller and attempts no
fallback notification; only the `python/` variant's orchestrator catches
the error, hands the fixed failure message to the WhatsApp channel and
returns normally (and that variant's send call sites pass one argument to
the two-parameter `WhatsAppService.send_message`). -/
theorem claim_C9 :
    (∀ (e : String) (sendOutcome : Except String Unit),
      CustomsSummary.generate_daily_summary (Except.error e) sendOutcome =
        (Except.error e, []))
    ∧ (∀ e : String,
      PyCustomsSummary.generate_daily_summary (Except.error e) =
        ((), [PyCustomsSummary.error_message])) :=
  ⟨fun _ _ => rfl, fun _ => rfl⟩

/-- C10: in the grouping loop of `format_summary_message` the
returning-to-sender check precedes the customs-keyword check, which precedes
both status checks: whatever the record's status (in particular `alert`,
`expired` or `undelivered`), a translated event containing a customs keyword
but not `'retornando ao remetente'` appends only the bare tracking number to
the customs-pending group, leaving the alert and problem groups untouched;
and a translated event containing `'retornando ao remetente'` goes to the
problem group even when a customs keyword is also present. -/
theorem claim_C10 :
    ∀ (st : CustomsSummary.FmtState) (pkg : Package) (ti : TrackInfo),
      pkg.track_info = some ti →
      (pyContains (pyLower (CustomsSummary.translate_event (CustomsSummary.eventOf ti)))
          "retornando ao remetente" = false →
        (CustomsSummary.customs_keywords.any fun kw =>
          pyContains (pyLower (CustomsSummary.translate_event (CustomsSummary.eventOf ti)))
            kw) = true →
        CustomsSummary.processPkg st pkg =
          { st with
              taxas_pendentes :=
                st.taxas_pendentes ++ ["*" ++ pkg.number.getD "N/A" ++ "*"],
              mensagem_taxa :=
                if CustomsSummary.pyTruthyStr st.mensagem_taxa then st.mensagem_taxa
                else some (CustomsSummary.translate_event (CustomsSummary.eventOf ti)) })
      ∧ (pyContains (pyLower (CustomsSummary.translate_event (CustomsSummary.eventOf ti)))
          "retornando ao remetente" = true →
        CustomsSummary.processPkg st pkg =
          { st with
              com_problemas :=
                st.com_problemas ++ ["*" ++ pkg.number.getD "N/A" ++ "*: " ++
                  CustomsSummary.translate_event (CustomsSummary.eventOf ti)] }) := by
  intro st pkg ti hti
  constructor
  · intro hret hkw
    simp [CustomsSummary.processPkg, hti, hret, hkw]
  · intro hret
    simp [CustomsSummary.processPkg, hti, hret]

/-- C10 (witness): starting from the empty loop state — a record with status
`alert` whose event translates to `"Pagamento de taxas alfandegárias
solicitado"` (contains the keyword `taxa`) lands in the customs-pending
group as a bare tracking number; a record with status `alert` whose event
translates to `"Pacote retornando ao remetente - customs"` (containing both
the forcing phrase and a keyword) lands in the problem group. -/
theorem claim_C10_witness :
    CustomsSummary.processPkg ⟨[], [], [], none⟩
      ⟨some "BRX", some ⟨some ⟨some "Customs duties payment requested"⟩, some ⟨some "alert"⟩⟩⟩ =
      ⟨["*BRX*"], [], [], some "Pagamento de taxas alfandegárias solicitado"⟩
    ∧ CustomsSummary.processPkg ⟨[], [], [], none⟩
      ⟨some "BRY", some ⟨some ⟨some "Package returning to sender - customs"⟩,
        some ⟨some "alert"⟩⟩⟩ =
      ⟨[], [], ["*BRY*: Pacote retornando ao remetente - customs"], none⟩ :=
  ⟨((claim_C10 ⟨[], [], [], none⟩ _ _ rfl).1 (by decide) (by decide)).trans (by decide),
   ((claim_C10 ⟨[], [], [], none⟩ _ _ rfl).2 (by decide)).trans (by decide)⟩
